import Mathlib

/-!
Shallow embedding of the real-time collaboration hub of the
collaborative-video-editor backend:

* `src/backend/app/websockets/manager.py` (`ConnectionManager`),
* `src/backend/app/api/api_v1/endpoints/websocket.py` (receive loop and
  message router), and
* `src/backend/app/api/api_v1/endpoints/timeline.py`
  (`reorder_timeline_clips`).

Modelling conventions:

* WebSocket handles and database/user identifiers are `Nat`.
* Python `dict`s are association lists with unique keys; `dget`, `dset`
  and `ddel` model `d[k]`, `d[k] = v` and `del d[k]`.  `dset` places the
  updated binding at the front instead of preserving Python's insertion
  order; no verified property depends on dict iteration order.
* Network sends are events `(recipient, envelope)` accumulated in a list;
  a `fails` parameter lists the websockets whose `send_text` raises, which
  is how the `try/except` blocks of the source are made explicit.
* Float fields (`x`, `y`, `timestamp`, `start_time`) hold exact values in
  this program (client-supplied numbers, `index * 1.0`), so they are
  modelled as `Int` / `Rat`.
-/

/-- Python dict lookup `d.get(k)` / `d[k]` on an association list. -/
def dget {α : Type} (k : Nat) : List (Nat × α) → Option α
  | [] => none
  | (k1, v) :: d => if k1 = k then some v else dget k d

/-- Python `del d[k]` (also used to restate `dset`): drops every binding
of key `k`. -/
def ddel {α : Type} (k : Nat) (d : List (Nat × α)) : List (Nat × α) :=
  d.filter (fun p => decide (p.1 ≠ k))

/-- Python `d[k] = v`: binds `k` to `v`, replacing any previous binding. -/
def dset {α : Type} (k : Nat) (v : α) (d : List (Nat × α)) : List (Nat × α) :=
  (k, v) :: ddel k d

theorem dget_dset_self {α : Type} (k : Nat) (v : α) (d : List (Nat × α)) :
    dget k (dset k v d) = some v := by
  simp [dset, dget]

theorem dget_ddel_self {α : Type} (k : Nat) (d : List (Nat × α)) :
    dget k (ddel k d) = none := by
  induction d with
  | nil => rfl
  | cons p d ih =>
    by_cases hp : p.1 = k
    · simpa [ddel, hp] using ih
    · simpa [ddel, List.filter_cons, hp, dget] using ih

theorem dget_ddel_ne {α : Type} {k k1 : Nat} (h : k1 ≠ k) (d : List (Nat × α)) :
    dget k1 (ddel k d) = dget k1 d := by
  induction d with
  | nil => rfl
  | cons p d ih =>
    by_cases hp : p.1 = k
    · have hpk : p.1 ≠ k1 := by
        intro hc
        exact h (hc ▸ hp ▸ rfl)
      simp [ddel, List.filter_cons, hp, dget] at *
      simpa [hpk, Ne.symm hpk] using ih
    · by_cases hk1 : p.1 = k1
      · simp [ddel, List.filter_cons, hp, dget, hk1, h]
      · simp [ddel, List.filter_cons, hp, dget, hk1] at *
        exact ih

theorem dget_dset_ne {α : Type} {k k1 : Nat} (h : k1 ≠ k) (v : α)
    (d : List (Nat × α)) : dget k1 (dset k v d) = dget k1 d := by
  simp [dset, dget, Ne.symm h, dget_ddel_ne h]

/-- A lookup hit names an actual binding of the association list. -/
theorem mem_of_dget {α : Type} {k : Nat} {v : α} :
    ∀ {d : List (Nat × α)}, dget k d = some v → (k, v) ∈ d := by
  intro d
  induction d with
  | nil => intro h; simp [dget] at h
  | cons p d ih =>
    intro h
    by_cases hp : p.1 = k
    · simp [dget, hp] at h
      have hpv : p = (k, v) := by
        cases p
        simp_all
      exact hpv ▸ List.mem_cons_self _ _
    · simp [dget, hp] at h
      exact List.mem_cons_of_mem _ (ih h)

/-- A binding of the association list is found by lookup (at that key,
possibly shadowed by an earlier binding). -/
theorem dget_isSome_of_mem {α : Type} {k : Nat} {v : α} :
    ∀ {d : List (Nat × α)}, (k, v) ∈ d → (dget k d).isSome := by
  intro d
  induction d with
  | nil => intro h; simp at h
  | cons p d ih =>
    intro h
    by_cases hp : p.1 = k
    · simp [dget, hp]
    · rcases List.mem_cons.1 h with h1 | h1
      · cases h1; simp at hp
      · simpa [dget, hp] using ih h1

/-- Keys of an association list are pairwise distinct. -/
def keysNodup {α : Type} (d : List (Nat × α)) : Prop :=
  (d.map Prod.fst).Nodup

theorem keysNodup_ddel {α : Type} (k : Nat) {d : List (Nat × α)}
    (h : keysNodup d) : keysNodup (ddel k d) := by
  have hsub : List.Sublist ((ddel k d).map Prod.fst) (d.map Prod.fst) :=
    List.Sublist.map _ (List.filter_sublist d)
  exact List.Nodup.sublist hsub h

theorem keysNodup_dset {α : Type} (k : Nat) (v : α) {d : List (Nat × α)}
    (h : keysNodup d) : keysNodup (dset k v d) := by
  refine List.Nodup.cons ?_ (keysNodup_ddel k h)
  intro hk
  rcases List.mem_map.1 hk with ⟨p, hp, hpk⟩
  have := List.of_mem_filter hp
  simp [hpk] at this

/-! ## Data model (`manager.py`) -/

/-- The per-user cursor dict kept in `ConnectionManager.user_cursors`:
`{"x", "y", "username", "color"}`, plus the `"timestamp"` key that
`handle_cursor_update` adds (`none` both while the key is absent and when
the client sent a null timestamp). -/
structure Cursor where
  x : Int
  y : Int
  username : String
  color : String
  timestamp : Option Int
deriving DecidableEq

/-- The per-connection dict kept in `ConnectionManager.connection_users`:
`{"user_id", "username", "project_id"}`. -/
structure ConnInfo where
  user_id : Nat
  username : String
  project_id : Nat
deriving DecidableEq

/-- An `active_users` entry of the joining-client snapshot:
`{"id", "username", "cursor"}`. -/
structure UserEntry where
  id : Nat
  username : String
  cursor : Cursor
deriving DecidableEq

/-- The fields of an inbound client message dict that the server ever
reads via `message.get(...)`; `user_id`/`username` are client-supplied
identity fields that the handlers never read. -/
structure InMsg where
  type : Option String
  x : Option Int
  y : Option Int
  timestamp : Option Int
  message : Option String
  user_id : Option Nat
  username : Option String
deriving DecidableEq

/-- Outbound server envelopes (the dicts passed to `send_text` after
`json.dumps`).  `timeline_update` relays the whole inbound dict as its
`data` field. -/
inductive Envelope where
  | user_joined (user : UserEntry)
  | project_state (active_users : List UserEntry)
  | cursor_update (user_id : Nat) (cursor : Cursor)
  | timeline_update (user_id : Nat) (data : InMsg)
  | chat_message (user_id : Nat) (username : String) (message : String)
      (timestamp : Option Int)
  | pong (timestamp : Option Int)
  | error (message : String)
deriving DecidableEq

/-- The `"type"` field each envelope is serialized with. -/
def Envelope.typeTag : Envelope → String
  | .user_joined _ => "user_joined"
  | .project_state _ => "project_state"
  | .cursor_update _ _ => "cursor_update"
  | .timeline_update _ _ => "timeline_update"
  | .chat_message _ _ _ _ => "chat_message"
  | .pong _ => "pong"
  | .error _ => "error"

/-- `ConnectionManager.__init__`: `active_connections` maps project id to
the Python list of websockets, `connection_users` maps websocket to its
bound identity, `user_cursors` maps project id to the per-user cursor
dict. -/
structure MState where
  active_connections : List (Nat × List Nat)
  connection_users : List (Nat × ConnInfo)
  user_cursors : List (Nat × List (Nat × Cursor))
deriving DecidableEq

/-- The state of the freshly constructed `ConnectionManager`. -/
def initState : MState := ⟨[], [], []⟩

/-- `ConnectionManager._generate_user_color`:
`colors[user_id % len(colors)]`. -/
def generate_user_color (user_id : Nat) : String :=
  (["#FF6B6B", "#4ECDC4", "#45B7D1", "#96CEB4", "#FFEAA7",
    "#DDA0DD", "#98D8C8", "#F7DC6F", "#BB8FCE", "#85C1E9"]).getD
    (user_id % 10) ""

/-- `ConnectionManager.send_personal_message`: one `send_text` whose
exception is caught and swallowed (no disconnect), so a failing recipient
simply produces no delivery event. -/
def send_personal_message (websocket : Nat) (message : Envelope)
    (fails : List Nat) : List (Nat × Envelope) :=
  if websocket ∈ fails then [] else [(websocket, message)]

/-- Python `list.remove(x)`: drops the first occurrence.  (`list.remove`
raises `ValueError` when `x` is absent; `disconnect` only reaches it for
a registered websocket, which the reachability invariants below show is
always present in its room's list, so that branch is not modelled.) -/
def removeFirst (x : Nat) : List Nat → List Nat
  | [] => []
  | y :: ys => if y = x then ys else y :: removeFirst x ys

/-- `ConnectionManager.disconnect` (manager.py:80-99): a no-op for an
unregistered websocket; otherwise removes the websocket from its room's
list (dropping the room and its cursor dict when the list empties), then
deletes the user's cursor entry if still present, then unbinds the
websocket. -/
def disconnect (websocket : Nat) (st : MState) : MState :=
  match dget websocket st.connection_users with
  | none => st
  | some info =>
    let project_id := info.project_id
    let user_id := info.user_id
    let st1 :=
      match dget project_id st.active_connections with
      | none => st
      | some conns =>
        let conns1 := removeFirst websocket conns
        if conns1 = [] then
          { st with
            active_connections := ddel project_id st.active_connections,
            user_cursors := ddel project_id st.user_cursors }
        else
          { st with
            active_connections := dset project_id conns1 st.active_connections }
    let st2 :=
      match dget project_id st1.user_cursors with
      | none => st1
      | some cmap =>
        if (dget user_id cmap).isSome then
          { st1 with
            user_cursors := dset project_id (ddel user_id cmap) st1.user_cursors }
        else st1
    { st2 with connection_users := ddel websocket st2.connection_users }

/-- `ConnectionManager.broadcast_to_project` (manager.py:108-127): sends
to every websocket of the room except `exclude_websocket`, collecting the
websockets whose send raised, and only after the loop disconnects each of
them. -/
def broadcast_to_project (st : MState) (project_id : Nat) (message : Envelope)
    (exclude_websocket : Option Nat) (fails : List Nat) :
    MState × List (Nat × Envelope) :=
  match dget project_id st.active_connections with
  | none => (st, [])
  | some conns =>
    let deliveries :=
      (conns.filter (fun ws => decide (some ws ≠ exclude_websocket ∧ ws ∉ fails))).map
        (fun ws => (ws, message))
    let disconnected :=
      conns.filter (fun ws => decide (some ws ≠ exclude_websocket ∧ ws ∈ fails))
    (disconnected.foldl (fun s ws => disconnect ws s) st, deliveries)

/-- `ConnectionManager.connect` (manager.py:27-78): creates the room
entries on first join, appends the websocket, binds its identity, seeds
the cursor, broadcasts `user_joined` to the others, and sends the
current-state snapshot (type `"project_state"`) to the joiner. -/
def connect (websocket : Nat) (project_id : Nat) (user_id : Nat)
    (username : String) (fails : List Nat) (st : MState) :
    MState × List (Nat × Envelope) :=
  let st :=
    if (dget project_id st.active_connections).isSome then st
    else
      { st with
        active_connections := dset project_id [] st.active_connections,
        user_cursors := dset project_id [] st.user_cursors }
  let conns := (dget project_id st.active_connections).getD []
  let st :=
    { st with
      active_connections := dset project_id (conns ++ [websocket]) st.active_connections }
  let st :=
    { st with
      connection_users := dset websocket ⟨user_id, username, project_id⟩ st.connection_users }
  let cursor : Cursor := ⟨0, 0, username, generate_user_color user_id, none⟩
  let cmap := (dget project_id st.user_cursors).getD []
  let st :=
    { st with user_cursors := dset project_id (dset user_id cursor cmap) st.user_cursors }
  let p := broadcast_to_project st project_id
    (.user_joined ⟨user_id, username, cursor⟩) (some websocket) fails
  let snapshot :=
    ((dget project_id p.1.user_cursors).getD []).map
      (fun q => UserEntry.mk q.1 q.2.username q.2)
  (p.1, p.2 ++ send_personal_message websocket (.project_state snapshot) fails)

/-- `ConnectionManager.handle_cursor_update` (manager.py:129-155). -/
def handle_cursor_update (websocket : Nat) (data : InMsg) (fails : List Nat)
    (st : MState) : MState × List (Nat × Envelope) :=
  match dget websocket st.connection_users with
  | none => (st, [])
  | some info =>
    match dget info.project_id st.user_cursors with
    | none => (st, [])
    | some cmap =>
      match dget info.user_id cmap with
      | none => (st, [])
      | some c =>
        let c1 : Cursor :=
          { c with x := data.x.getD 0, y := data.y.getD 0, timestamp := data.timestamp }
        let st1 :=
          { st with
            user_cursors := dset info.project_id (dset info.user_id c1 cmap) st.user_cursors }
        broadcast_to_project st1 info.project_id
          (.cursor_update info.user_id c1) (some websocket) fails

/-- `ConnectionManager.handle_timeline_update` (manager.py:157-174). -/
def handle_timeline_update (websocket : Nat) (data : InMsg) (fails : List Nat)
    (st : MState) : MState × List (Nat × Envelope) :=
  match dget websocket st.connection_users with
  | none => (st, [])
  | some info =>
    broadcast_to_project st info.project_id
      (.timeline_update info.user_id data) (some websocket) fails

/-- `ConnectionManager.handle_chat_message` (manager.py:176-194): relays
`message`/`timestamp` from the payload with the identity bound at join
time, to the whole room (no exclusion). -/
def handle_chat_message (websocket : Nat) (data : InMsg) (fails : List Nat)
    (st : MState) : MState × List (Nat × Envelope) :=
  match dget websocket st.connection_users with
  | none => (st, [])
  | some info =>
    broadcast_to_project st info.project_id
      (.chat_message info.user_id info.username (data.message.getD "") data.timestamp)
      none fails

/-! ## Receive loop and message router (`endpoints/websocket.py`) -/

/-- How Python renders `message.get("type")` inside the f-string
`"Unknown message type: ..."` (`None` when the key is absent). -/
def strOfType : Option String → String
  | some t => t
  | none => "None"

/-- `handle_websocket_message` (websocket.py:105-138): string dispatch on
`message.get("type")`; `ping` and the unknown-type fallback reply
directly to the sender.  (The direct `send_text` replies sit inside the
surrounding `try/except`; their own failure is not modelled, so they are
recorded as delivery events unconditionally.) -/
def handle_websocket_message (websocket : Nat) (message : InMsg)
    (fails : List Nat) (st : MState) : MState × List (Nat × Envelope) :=
  if message.type = some "cursor_update" then
    handle_cursor_update websocket message fails st
  else if message.type = some "timeline_update" then
    handle_timeline_update websocket message fails st
  else if message.type = some "chat_message" then
    handle_chat_message websocket message fails st
  else if message.type = some "ping" then
    (st, [(websocket, .pong message.timestamp)])
  else
    (st, [(websocket, .error ("Unknown message type: " ++ strOfType message.type))])

/-- One raw frame received from a connected client.  `notJson` is text
`json.loads` raises on; `notObject` is valid JSON that is not an object,
so `message.get("type")` (websocket.py:107, outside the inner `try`)
raises `AttributeError`. -/
inductive Raw where
  | notJson
  | notObject
  | obj (message : InMsg)
deriving DecidableEq

/-- Whether the receive loop of `websocket_endpoint` keeps running after
one inbound frame, or was torn down by the outer exception handler
(websocket.py:66-71), which closes the socket without calling
`manager.disconnect`. -/
inductive LoopOutcome where
  | keptOpen
  | closedByError
deriving DecidableEq

/-- One iteration of the receive loop of `websocket_endpoint`
(websocket.py:55-71).  A frame that fails to parse as a JSON object
raises before/outside the router's `try`, escapes the `while` loop
(only `WebSocketDisconnect` is handled there) and reaches the outer
`except`, which closes the transport; the manager state is untouched and
no error envelope is sent. -/
def recvStep (websocket : Nat) (raw : Raw) (fails : List Nat) (st : MState) :
    MState × List (Nat × Envelope) × LoopOutcome :=
  match raw with
  | .notJson => (st, [], .closedByError)
  | .notObject => (st, [], .closedByError)
  | .obj message =>
    let p := handle_websocket_message websocket message fails st
    (p.1, p.2, .keptOpen)

/-! ## Reachability -/

/-- The state part of a `connect` whose sends all succeed. -/
def connectSt (websocket project_id user_id : Nat) (username : String)
    (st : MState) : MState :=
  (connect websocket project_id user_id username [] st).1

/-- Manager states produced by a finite sequence of `connect` and
`disconnect` calls.  A `connect` is only issued for a transport handle
that is not currently registered (each live WebSocket object joins at
most once). -/
inductive Reachable : MState → Prop where
  | init : Reachable initState
  | conn {st : MState} (websocket project_id user_id : Nat) (username : String) :
      Reachable st → dget websocket st.connection_users = none →
      Reachable (connectSt websocket project_id user_id username st)
  | disc {st : MState} (websocket : Nat) :
      Reachable st → Reachable (disconnect websocket st)

/-- A joins-only history: folds `connect` (all sends succeeding) for each
`(websocket, user_id, username)` triple, all into the same room. -/
def joinAll (project_id : Nat) (joins : List (Nat × Nat × String))
    (st : MState) : MState :=
  joins.foldl (fun s j => connectSt j.1 project_id j.2.1 j.2.2 s) st

/-! ## Timeline reorder endpoint (`endpoints/timeline.py`) -/

/-- A `timeline_clips` row, restricted to the columns the reorder
endpoint filters on or updates, plus representative untouched columns. -/
structure Clip where
  id : Nat
  project_id : Nat
  start_time : Rat
  duration : Rat
  track_number : Nat
deriving DecidableEq

/-- `db.query(TimelineClip).filter(...).first()` followed by an in-place
column update: rewrites the first list element satisfying `p`. -/
def updateFirst (p : Clip → Bool) (f : Clip → Clip) : List Clip → List Clip
  | [] => []
  | c :: cs => if p c then f c :: cs else c :: updateFirst p f cs

/-- The `for index, clip_id in enumerate(clip_order)` loop of
`reorder_timeline_clips` (timeline.py:207-215), with `i` the value
`enumerate` yields for the head of the remaining list: looks up the clip
by id within the project and, when found, sets
`start_time = index * 1.0`. -/
def reorderLoop (project_id : Nat) (i : Nat) :
    List Nat → List Clip → List Clip
  | [], db => db
  | clip_id :: rest, db =>
    reorderLoop project_id (i + 1) rest
      (updateFirst (fun c => decide (c.id = clip_id ∧ c.project_id = project_id))
        (fun c => { c with start_time := (i : Rat) * 1 }) db)

/-- Result of the reorder endpoint: HTTP 403, or the updated table plus
the success body. -/
inductive ReorderResult where
  | forbidden
  | ok (db : List Clip) (message : String)
deriving DecidableEq

/-- `reorder_timeline_clips` (timeline.py:186-219): 403 unless the caller
is a project member with role `owner` or `editor` (`role = none` models
no membership row); otherwise renumbers the listed clips sequentially and
reports success. -/
def reorder_timeline_clips (project_id : Nat) (clip_order : List Nat)
    (role : Option String) (db : List Clip) : ReorderResult :=
  match role with
  | none => .forbidden
  | some r =>
    if r = "owner" ∨ r = "editor" then
      .ok (reorderLoop project_id 0 clip_order db) "Timeline reordered successfully"
    else .forbidden

/-! ## Helper lemmas about `disconnect` and `broadcast_to_project` -/

theorem disconnect_not_registered {websocket : Nat} {st : MState}
    (h : dget websocket st.connection_users = none) :
    disconnect websocket st = st := by
  simp [disconnect, h]

theorem disconnect_users_eq {websocket : Nat} {st : MState} {info : ConnInfo}
    (h : dget websocket st.connection_users = some info) :
    (disconnect websocket st).connection_users =
      ddel websocket st.connection_users := by
  unfold disconnect
  rw [h]
  cases h2 : dget info.project_id st.active_connections with
  | none =>
    cases h3 : dget info.project_id st.user_cursors with
    | none => simp [h2, h3]
    | some cmap =>
      by_cases h4 : (dget info.user_id cmap).isSome
      · simp [h2, h3, h4]
      · simp [h2, h3, h4]
  | some conns =>
    by_cases h5 : removeFirst websocket conns = []
    · cases h3 : dget info.project_id (ddel info.project_id st.user_cursors) with
      | none => simp [h2, h3, h5]
      | some cmap =>
        by_cases h4 : (dget info.user_id cmap).isSome
        · simp [h2, h3, h4, h5]
        · simp [h2, h3, h4, h5]
    · cases h3 : dget info.project_id st.user_cursors with
      | none => simp [h2, h3, h5]
      | some cmap =>
        by_cases h4 : (dget info.user_id cmap).isSome
        · simp [h2, h3, h4, h5]
        · simp [h2, h3, h4, h5]

/-- After `disconnect(ws)`, `ws` is never registered. -/
theorem disconnect_users_self (websocket : Nat) (st : MState) :
    dget websocket (disconnect websocket st).connection_users = none := by
  cases h : dget websocket st.connection_users with
  | none => rw [disconnect_not_registered h, h]
  | some info => rw [disconnect_users_eq h, dget_ddel_self]

/-- `disconnect` never registers anybody. -/
theorem disconnect_users_preserves_none {w : Nat} {st : MState}
    (h : dget w st.connection_users = none) (x : Nat) :
    dget w (disconnect x st).connection_users = none := by
  cases h2 : dget x st.connection_users with
  | none => rw [disconnect_not_registered h2]; exact h
  | some info =>
    rw [disconnect_users_eq h2]
    by_cases hw : w = x
    · subst hw; rw [dget_ddel_self]
    · rw [dget_ddel_ne hw]; exact h

theorem foldl_disconnect_preserves_none {w : Nat} :
    ∀ (l : List Nat) {st : MState}, dget w st.connection_users = none →
      dget w ((l.foldl (fun s ws => disconnect ws s) st)).connection_users = none := by
  intro l
  induction l with
  | nil => intro st h; exact h
  | cons x xs ih =>
    intro st h
    exact ih (disconnect_users_preserves_none h x)

theorem foldl_disconnect_mem {w : Nat} :
    ∀ (l : List Nat) {st : MState}, w ∈ l →
      dget w ((l.foldl (fun s ws => disconnect ws s) st)).connection_users = none := by
  intro l
  induction l with
  | nil => intro st h; simp at h
  | cons x xs ih =>
    intro st h
    rcases List.mem_cons.1 h with h1 | h1
    · subst h1
      exact foldl_disconnect_preserves_none xs (disconnect_users_self w st)
    · exact ih h1

/-- A broadcast none of whose sends fail leaves the manager state
untouched. -/
theorem broadcast_nofail_state (st : MState) (project_id : Nat)
    (message : Envelope) (exclude_websocket : Option Nat) :
    (broadcast_to_project st project_id message exclude_websocket []).1 = st := by
  unfold broadcast_to_project
  cases h : dget project_id st.active_connections with
  | none => rfl
  | some conns =>
    have hnil : conns.filter
        (fun ws => decide (some ws ≠ exclude_websocket ∧ ws ∈ ([] : List Nat))) = [] := by
      simp
    simp [hnil]

/-! ## Concrete example states used by witnesses and counterexamples -/

/-- User 5 ("alice") joined room 7 over websocket 1. -/
def exSt1 : MState := connectSt 1 7 5 "alice" initState

/-- Room 7 with user 5 ("alice") on websocket 1 and user 6 ("bob") on
websocket 2. -/
def exRoom2 : MState := connectSt 2 7 6 "bob" exSt1

/-- C3: `leave` (`disconnect`) for a connection that is not currently
registered — never joined, or already disconnected — raises no error and
leaves the whole manager state (active connections, connection-user map,
cursor maps) unchanged; in particular a second `disconnect` after a
successful one changes nothing. -/
theorem c3_disconnect_idempotent_noop (st : MState) (websocket : Nat) :
    (dget websocket st.connection_users = none → disconnect websocket st = st) ∧
    disconnect websocket (disconnect websocket st) = disconnect websocket st := by
  constructor
  · intro h
    exact disconnect_not_registered h
  · exact disconnect_not_registered (disconnect_users_self websocket st)

/-- Witness for C3 at a concrete state: websocket 9 never joined, and a
double `disconnect` of websocket 1 is inert the second time. -/
theorem c3_disconnect_idempotent_noop_witness :
    disconnect 9 exSt1 = exSt1 ∧
    disconnect 1 (disconnect 1 exSt1) = disconnect 1 exSt1 :=
  ⟨(c3_disconnect_idempotent_noop exSt1 9).1 (by decide),
   (c3_disconnect_idempotent_noop exSt1 1).2⟩

/-- C9: a `ping` envelope is answered with a `pong` echoing the
client-supplied timestamp (`none` when absent), sent to the sender only —
the event list is exactly that one reply — with the manager state
untouched and the connection kept open. -/
theorem c9_ping_pong (st : MState) (websocket : Nat) (fails : List Nat)
    (message : InMsg) (h : message.type = some "ping") :
    recvStep websocket (.obj message) fails st =
      (st, [(websocket, Envelope.pong message.timestamp)], .keptOpen) := by
  simp [recvStep, handle_websocket_message, h]

/-- Witness for C9: `{"type": "ping", "timestamp": 42}` from websocket 1
gets exactly `{"type": "pong", "timestamp": 42}` back. -/
theorem c9_ping_pong_witness :
    recvStep 1 (.obj ⟨some "ping", none, none, some 42, none, none, none⟩) [] exSt1 =
      (exSt1, [(1, Envelope.pong (some 42))], .keptOpen) :=
  c9_ping_pong exSt1 1 [] ⟨some "ping", none, none, some 42, none, none, none⟩ rfl

/-- C2 as stated is false: an inbound frame that is not parseable as the
envelope structure (here: text `json.loads` rejects) does not get an
`error` reply and does not leave the connection open — the exception
escapes the receive loop and the outer handler closes the socket, with no
envelope sent to anyone.  Websocket 1 is registered in `exSt1`. -/
theorem c2_counterexample :
    dget 1 exSt1.connection_users = some ⟨5, "alice", 7⟩ ∧
    recvStep 1 .notJson [] exSt1 = (exSt1, [], .closedByError) := by
  constructor
  · decide
  · rfl

/-- C2 amended: an envelope whose `type` is unknown, or missing
altogether (`message.get("type")` returns `None` and the reply reads
`"Unknown message type: None"`), gets exactly one `error` envelope back,
to the sender only, with no broadcast, the manager state unchanged and
the connection kept open; but a frame that is not parseable as the
envelope structure (invalid JSON, or JSON that is not an object) is
fatal: the receive loop ends and the socket is closed, with no `error`
envelope, no broadcast, and the manager state (hence the stale
registration) untouched. -/
theorem c2_router_error_handling (st : MState) (websocket : Nat)
    (fails : List Nat) :
    (∀ (t : String) (message : InMsg), message.type = some t →
      t ≠ "cursor_update" → t ≠ "timeline_update" → t ≠ "chat_message" →
      t ≠ "ping" →
      recvStep websocket (.obj message) fails st =
        (st, [(websocket, Envelope.error ("Unknown message type: " ++ t))],
          .keptOpen)) ∧
    (∀ message : InMsg, message.type = none →
      recvStep websocket (.obj message) fails st =
        (st, [(websocket, Envelope.error "Unknown message type: None")],
          .keptOpen)) ∧
    recvStep websocket .notJson fails st = (st, [], .closedByError) ∧
    recvStep websocket .notObject fails st = (st, [], .closedByError) := by
  refine ⟨?_, ?_, rfl, rfl⟩
  · intro t message h h1 h2 h3 h4
    simp [recvStep, handle_websocket_message, h, h1, h2, h3, h4, strOfType]
  · intro message h
    simp [recvStep, handle_websocket_message, h, strOfType]

/-- Witness for C2 (amended): websocket 1 sending type `"bogus"`, and
websocket 1 sending an object with no `type` key at all. -/
theorem c2_router_error_handling_witness :
    recvStep 1 (.obj ⟨some "bogus", none, none, none, none, none, none⟩) [] exSt1 =
      (exSt1, [(1, Envelope.error "Unknown message type: bogus")], .keptOpen) ∧
    recvStep 1 (.obj ⟨none, none, none, none, none, none, none⟩) [] exSt1 =
      (exSt1, [(1, Envelope.error "Unknown message type: None")], .keptOpen) :=
  ⟨(c2_router_error_handling exSt1 1 []).1 "bogus"
      ⟨some "bogus", none, none, none, none, none, none⟩ rfl
      (by decide) (by decide) (by decide) (by decide),
   (c2_router_error_handling exSt1 1 []).2.1
      ⟨none, none, none, none, none, none, none⟩ rfl⟩

/-- Room 7 with users 5, 6, 8 on websockets 1, 2, 3. -/
def exRoom3 : MState := connectSt 3 7 8 "carol" exRoom2

/-- C5: during `broadcast_to_project`, a send failure on one recipient
does not prevent delivery to any other non-excluded recipient of the
room's (pre-broadcast) connection list, and each failed connection has
been disconnected by the time the call returns — the cleanup runs on the
list collected during the loop, after the loop, and the call returns
normally (nothing is surfaced to the sender). -/
theorem c5_broadcast_failure_isolation (st : MState) (project_id : Nat)
    (message : Envelope) (exclude_websocket : Option Nat) (fails : List Nat)
    (conns : List Nat) (websocket : Nat)
    (h1 : dget project_id st.active_connections = some conns)
    (h2 : websocket ∈ conns) (h3 : some websocket ≠ exclude_websocket) :
    (websocket ∉ fails →
      (websocket, message) ∈
        (broadcast_to_project st project_id message exclude_websocket fails).2) ∧
    (websocket ∈ fails →
      dget websocket
        (broadcast_to_project st project_id message exclude_websocket fails).1.connection_users
        = none) := by
  simp only [broadcast_to_project, h1]
  constructor
  · intro hnf
    exact List.mem_map.2
      ⟨websocket, List.mem_filter.2 ⟨h2, by simp [h3, hnf]⟩, rfl⟩
  · intro hf
    exact foldl_disconnect_mem _ (List.mem_filter.2 ⟨h2, by simp [h3, hf]⟩)

/-- Witness for C5: in the three-connection room, with websocket 2's send
failing, websocket 3 still gets the envelope and websocket 2 has been
disconnected when the broadcast returns. -/
theorem c5_broadcast_failure_isolation_witness :
    (3, Envelope.pong none) ∈ (broadcast_to_project exRoom3 7 (.pong none) none [2]).2 ∧
    dget 2 (broadcast_to_project exRoom3 7 (.pong none) none [2]).1.connection_users = none :=
  ⟨(c5_broadcast_failure_isolation exRoom3 7 (.pong none) none [2] [1, 2, 3] 3
      (by decide) (by decide) (by decide)).1 (by decide),
   (c5_broadcast_failure_isolation exRoom3 7 (.pong none) none [2] [1, 2, 3] 2
      (by decide) (by decide) (by decide)).2 (by decide)⟩

/-- C8: every envelope a `chat_message` broadcast emits carries the
`user_id`/`username` bound to the sender's connection at join time; every
non-failing connection of the room — the sender included, since nothing is
excluded — receives it; and two inbound payloads that agree on `message`
and `timestamp` (so differ at most in client-supplied identity fields)
produce identical results. -/
theorem c8_chat_identity_binding (st : MState) (websocket : Nat)
    (data : InMsg) (fails : List Nat) (info : ConnInfo) (conns : List Nat)
    (h1 : dget websocket st.connection_users = some info)
    (h2 : dget info.project_id st.active_connections = some conns) :
    (∀ p ∈ (handle_chat_message websocket data fails st).2,
      p.2 = Envelope.chat_message info.user_id info.username
        (data.message.getD "") data.timestamp) ∧
    (∀ w ∈ conns, w ∉ fails →
      (w, Envelope.chat_message info.user_id info.username
        (data.message.getD "") data.timestamp)
        ∈ (handle_chat_message websocket data fails st).2) ∧
    (∀ data2 : InMsg, data2.message = data.message →
      data2.timestamp = data.timestamp →
      handle_chat_message websocket data2 fails st =
        handle_chat_message websocket data fails st) := by
  refine ⟨?_, ?_, ?_⟩
  · simp only [handle_chat_message, h1, broadcast_to_project, h2]
    intro p hp
    rcases List.mem_map.1 hp with ⟨w, hw, hpe⟩
    rw [← hpe]
  · simp only [handle_chat_message, h1, broadcast_to_project, h2]
    intro w hw hwf
    exact List.mem_map.2 ⟨w, List.mem_filter.2 ⟨hw, by simp [hwf]⟩, rfl⟩
  · intro data2 hm ht
    simp [handle_chat_message, h1, hm, ht]

/-- Witness for C8: "alice" (user 5, websocket 1) sends a chat payload
spoofing `user_id 999` / `"mallory"`; the sender itself receives the
envelope stamped with the bound identity, and dropping the spoofed fields
changes nothing. -/
theorem c8_chat_identity_binding_witness :
    (1, Envelope.chat_message 5 "alice" "hi" (some 3)) ∈
      (handle_chat_message 1
        ⟨some "chat_message", none, none, some 3, some "hi", some 999, some "mallory"⟩
        [] exRoom2).2 ∧
    handle_chat_message 1
        ⟨some "chat_message", none, none, some 3, some "hi", none, none⟩ [] exRoom2 =
      handle_chat_message 1
        ⟨some "chat_message", none, none, some 3, some "hi", some 999, some "mallory"⟩
        [] exRoom2 :=
  ⟨(c8_chat_identity_binding exRoom2 1
      ⟨some "chat_message", none, none, some 3, some "hi", some 999, some "mallory"⟩
      [] ⟨5, "alice", 7⟩ [1, 2] (by decide) (by decide)).2.1 1 (by decide) (by decide),
   (c8_chat_identity_binding exRoom2 1
      ⟨some "chat_message", none, none, some 3, some "hi", some 999, some "mallory"⟩
      [] ⟨5, "alice", 7⟩ [1, 2] (by decide) (by decide)).2.2
      ⟨some "chat_message", none, none, some 3, some "hi", none, none⟩ rfl rfl⟩

/-! ## Field-level behavior of `connect` with no send failures -/

theorem connectSt_users (websocket project_id user_id : Nat) (username : String)
    (st : MState) :
    (connectSt websocket project_id user_id username st).connection_users =
      dset websocket ⟨user_id, username, project_id⟩ st.connection_users := by
  unfold connectSt connect
  by_cases h : (dget project_id st.active_connections).isSome <;>
    simp [h, broadcast_nofail_state]

theorem connectSt_active_self (websocket project_id user_id : Nat)
    (username : String) (st : MState) :
    dget project_id (connectSt websocket project_id user_id username st).active_connections =
      some ((dget project_id st.active_connections).getD [] ++ [websocket]) := by
  unfold connectSt connect
  by_cases h : (dget project_id st.active_connections).isSome
  · simp [h, broadcast_nofail_state, dget_dset_self]
  · rw [Option.not_isSome_iff_eq_none] at h
    simp [h, broadcast_nofail_state, dget_dset_self]

theorem connectSt_active_ne {p project_id : Nat} (hp : p ≠ project_id)
    (websocket user_id : Nat) (username : String) (st : MState) :
    dget p (connectSt websocket project_id user_id username st).active_connections =
      dget p st.active_connections := by
  unfold connectSt connect
  by_cases h : (dget project_id st.active_connections).isSome <;>
    simp [h, broadcast_nofail_state, dget_dset_ne hp]

theorem connectSt_cursors_self (websocket project_id user_id : Nat)
    (username : String) (st : MState) :
    dget project_id (connectSt websocket project_id user_id username st).user_cursors =
      some (dset user_id ⟨0, 0, username, generate_user_color user_id, none⟩
        (if (dget project_id st.active_connections).isSome then
          (dget project_id st.user_cursors).getD [] else [])) := by
  unfold connectSt connect
  by_cases h : (dget project_id st.active_connections).isSome <;>
    simp [h, broadcast_nofail_state, dget_dset_self]

theorem connectSt_cursors_ne {p project_id : Nat} (hp : p ≠ project_id)
    (websocket user_id : Nat) (username : String) (st : MState) :
    dget p (connectSt websocket project_id user_id username st).user_cursors =
      dget p st.user_cursors := by
  unfold connectSt connect
  by_cases h : (dget project_id st.active_connections).isSome <;>
    simp [h, broadcast_nofail_state, dget_dset_ne hp]

/-! ## Invariant: rooms present in the registry are non-empty (C4) -/

/-- Every project present in `active_connections` has a non-empty
connection list. -/
def roomsNonempty (st : MState) : Prop :=
  ∀ p conns, dget p st.active_connections = some conns → conns ≠ []

theorem disconnect_active_eq {websocket : Nat} {st : MState} {info : ConnInfo}
    (h : dget websocket st.connection_users = some info) :
    (disconnect websocket st).active_connections =
      match dget info.project_id st.active_connections with
      | none => st.active_connections
      | some conns =>
        if removeFirst websocket conns = [] then
          ddel info.project_id st.active_connections
        else
          dset info.project_id (removeFirst websocket conns) st.active_connections := by
  unfold disconnect
  rw [h]
  cases h2 : dget info.project_id st.active_connections with
  | none =>
    cases h3 : dget info.project_id st.user_cursors with
    | none => simp [h2, h3]
    | some cmap =>
      by_cases h4 : (dget info.user_id cmap).isSome
      · simp [h2, h3, h4]
      · simp [h2, h3, h4]
  | some conns =>
    by_cases h5 : removeFirst websocket conns = []
    · cases h3 : dget info.project_id (ddel info.project_id st.user_cursors) with
      | none => simp [h2, h3, h5]
      | some cmap =>
        by_cases h4 : (dget info.user_id cmap).isSome
        · simp [h2, h3, h4, h5]
        · simp [h2, h3, h4, h5]
    · cases h3 : dget info.project_id st.user_cursors with
      | none => simp [h2, h3, h5]
      | some cmap =>
        by_cases h4 : (dget info.user_id cmap).isSome
        · simp [h2, h3, h4, h5]
        · simp [h2, h3, h4, h5]

theorem roomsNonempty_connectSt {st : MState} (H : roomsNonempty st)
    (websocket project_id user_id : Nat) (username : String) :
    roomsNonempty (connectSt websocket project_id user_id username st) := by
  intro p conns h
  by_cases hp : p = project_id
  · subst hp
    rw [connectSt_active_self] at h
    cases h
    simp
  · rw [connectSt_active_ne hp] at h
    exact H p conns h

theorem roomsNonempty_disconnect {st : MState} (H : roomsNonempty st)
    (websocket : Nat) : roomsNonempty (disconnect websocket st) := by
  cases h : dget websocket st.connection_users with
  | none => rw [disconnect_not_registered h]; exact H
  | some info =>
    intro p conns hp
    rw [disconnect_active_eq h] at hp
    cases h2 : dget info.project_id st.active_connections with
    | none =>
      rw [h2] at hp
      exact H p conns hp
    | some conns0 =>
      simp only [h2] at hp
      by_cases h5 : removeFirst websocket conns0 = []
      · rw [if_pos h5] at hp
        by_cases hpp : p = info.project_id
        · subst hpp
          rw [dget_ddel_self] at hp
          cases hp
        · rw [dget_ddel_ne hpp] at hp
          exact H p conns hp
      · rw [if_neg h5] at hp
        by_cases hpp : p = info.project_id
        · subst hpp
          rw [dget_dset_self] at hp
          cases hp
          exact h5
        · rw [dget_dset_ne hpp] at hp
          exact H p conns hp

theorem reachable_roomsNonempty {st : MState} (h : Reachable st) :
    roomsNonempty st := by
  induction h with
  | init => intro p conns hp; cases hp
  | conn websocket project_id user_id username _ _ ih =>
    exact roomsNonempty_connectSt ih websocket project_id user_id username
  | disc websocket _ ih => exact roomsNonempty_disconnect ih websocket

/-! ## Cursor removal on disconnect, and the presence-backing invariant -/

/-- `user_cursors` after the room-removal step of `disconnect`
(manager.py:87-92). -/
def roomDropUC (websocket : Nat) (info : ConnInfo) (st : MState) :
    List (Nat × List (Nat × Cursor)) :=
  match dget info.project_id st.active_connections with
  | none => st.user_cursors
  | some conns =>
    if removeFirst websocket conns = [] then ddel info.project_id st.user_cursors
    else st.user_cursors

/-- `user_cursors` after the cursor-removal step of `disconnect`
(manager.py:94-96). -/
def cursorDropUC (websocket : Nat) (info : ConnInfo) (st : MState) :
    List (Nat × List (Nat × Cursor)) :=
  match dget info.project_id (roomDropUC websocket info st) with
  | none => roomDropUC websocket info st
  | some cmap =>
    if (dget info.user_id cmap).isSome then
      dset info.project_id (ddel info.user_id cmap) (roomDropUC websocket info st)
    else roomDropUC websocket info st

theorem disconnect_cursors_eq {websocket : Nat} {st : MState} {info : ConnInfo}
    (h : dget websocket st.connection_users = some info) :
    (disconnect websocket st).user_cursors = cursorDropUC websocket info st := by
  unfold disconnect cursorDropUC roomDropUC
  rw [h]
  cases h2 : dget info.project_id st.active_connections with
  | none =>
    cases h3 : dget info.project_id st.user_cursors with
    | none => simp [h2, h3]
    | some cmap =>
      by_cases h4 : (dget info.user_id cmap).isSome
      · simp [h2, h3, h4]
      · simp [h2, h3, h4]
  | some conns =>
    by_cases h5 : removeFirst websocket conns = []
    · cases h3 : dget info.project_id (ddel info.project_id st.user_cursors) with
      | none => simp [h2, h3, h5]
      | some cmap =>
        by_cases h4 : (dget info.user_id cmap).isSome
        · simp [h2, h3, h4, h5]
        · simp [h2, h3, h4, h5]
    · cases h3 : dget info.project_id st.user_cursors with
      | none => simp [h2, h3, h5]
      | some cmap =>
        by_cases h4 : (dget info.user_id cmap).isSome
        · simp [h2, h3, h4, h5]
        · simp [h2, h3, h4, h5]

/-- After `disconnect(ws)`, the user the websocket was bound to has no
cursor entry any more in that room (whether or not other connections of
the same user remain registered there). -/
theorem disconnect_cursor_none {websocket : Nat} {st : MState} {info : ConnInfo}
    (h : dget websocket st.connection_users = some info) :
    ∀ cmap, dget info.project_id (disconnect websocket st).user_cursors = some cmap →
      dget info.user_id cmap = none := by
  intro cmap hc
  rw [disconnect_cursors_eq h] at hc
  unfold cursorDropUC at hc
  cases hA : dget info.project_id (roomDropUC websocket info st) with
  | none =>
    rw [hA] at hc
    simp at hc
    rw [hA] at hc
    cases hc
  | some cmap0 =>
    rw [hA] at hc
    simp only [] at hc
    by_cases h4 : (dget info.user_id cmap0).isSome
    · rw [if_pos h4, dget_dset_self] at hc
      cases hc
      exact dget_ddel_self _ _
    · rw [if_neg h4, hA] at hc
      cases hc
      exact Option.not_isSome_iff_eq_none.1 h4

/-- `disconnect` of a room's only connection removes the room from the
registry and drops its cursor map. -/
theorem disconnect_removes_room {websocket : Nat} {st : MState} {info : ConnInfo}
    (h : dget websocket st.connection_users = some info)
    (hl : dget info.project_id st.active_connections = some [websocket]) :
    dget info.project_id (disconnect websocket st).active_connections = none ∧
    dget info.project_id (disconnect websocket st).user_cursors = none := by
  have hrm : removeFirst websocket [websocket] = [] := by simp [removeFirst]
  have hrd : roomDropUC websocket info st = ddel info.project_id st.user_cursors := by
    unfold roomDropUC
    rw [hl]
    simp [hrm]
  constructor
  · rw [disconnect_active_eq h, hl]
    simp only [hrm, if_pos]
    exact dget_ddel_self _ _
  · rw [disconnect_cursors_eq h]
    unfold cursorDropUC
    rw [hrd, dget_ddel_self]
    exact dget_ddel_self _ _

/-- Every cursor entry is backed by a live registered connection of that
user in that room. -/
def cursorBacked (st : MState) : Prop :=
  ∀ p cmap u c, dget p st.user_cursors = some cmap → dget u cmap = some c →
    ∃ w inf, dget w st.connection_users = some inf ∧
      inf.project_id = p ∧ inf.user_id = u

theorem cursorBacked_disconnect {st : MState} (H : cursorBacked st)
    (websocket : Nat) : cursorBacked (disconnect websocket st) := by
  cases h : dget websocket st.connection_users with
  | none => rw [disconnect_not_registered h]; exact H
  | some info =>
    have hroom : ∀ q cm, dget q (roomDropUC websocket info st) = some cm →
        dget q st.user_cursors = some cm := by
      intro q cm hq
      unfold roomDropUC at hq
      cases h2 : dget info.project_id st.active_connections with
      | none => simp only [h2] at hq; exact hq
      | some conns =>
        simp only [h2] at hq
        by_cases h5 : removeFirst websocket conns = []
        · rw [if_pos h5] at hq
          have hne : q ≠ info.project_id := by
            rintro rfl; rw [dget_ddel_self] at hq; cases hq
          rw [dget_ddel_ne hne] at hq
          exact hq
        · rw [if_neg h5] at hq; exact hq
    have surv : ∀ (p1 u1 : Nat) cm c1, dget p1 st.user_cursors = some cm →
        dget u1 cm = some c1 → (p1 ≠ info.project_id ∨ u1 ≠ info.user_id) →
        ∃ w inf, dget w (ddel websocket st.connection_users) = some inf ∧
          inf.project_id = p1 ∧ inf.user_id = u1 := by
      intro p1 u1 cm c1 hp1 hu1 hne
      rcases H p1 cm u1 c1 hp1 hu1 with ⟨w, inf, hw, hwp, hwu⟩
      have hwne : w ≠ websocket := by
        rintro rfl
        rw [hw] at h
        cases h
        rcases hne with hne | hne
        · exact hne hwp.symm
        · exact hne hwu.symm
      exact ⟨w, inf, by rw [dget_ddel_ne hwne]; exact hw, hwp, hwu⟩
    intro p cmap u c hp hu
    rw [disconnect_users_eq h]
    rw [disconnect_cursors_eq h] at hp
    unfold cursorDropUC at hp
    cases hA : dget info.project_id (roomDropUC websocket info st) with
    | none =>
      simp only [hA] at hp
      have hpne : p ≠ info.project_id := by
        rintro rfl; rw [hA] at hp; cases hp
      exact surv p u cmap c (hroom p cmap hp) hu (Or.inl hpne)
    | some cmap0 =>
      have hA0 : dget info.project_id st.user_cursors = some cmap0 := hroom _ _ hA
      simp only [hA] at hp
      by_cases h4 : (dget info.user_id cmap0).isSome
      · rw [if_pos h4] at hp
        by_cases hpp : p = info.project_id
        · subst hpp
          rw [dget_dset_self] at hp
          cases hp
          have hune : u ≠ info.user_id := by
            rintro rfl; rw [dget_ddel_self] at hu; cases hu
          rw [dget_ddel_ne hune] at hu
          exact surv _ u cmap0 c hA0 hu (Or.inr hune)
        · rw [dget_dset_ne hpp] at hp
          exact surv p u cmap c (hroom p cmap hp) hu (Or.inl hpp)
      · rw [if_neg h4] at hp
        by_cases hpp : p = info.project_id
        · subst hpp
          rw [hA] at hp
          cases hp
          have hune : u ≠ info.user_id := by
            rintro rfl
            exact h4 (by rw [hu]; rfl)
          exact surv _ u cmap c hA0 hu (Or.inr hune)
        · exact surv p u cmap c (hroom p cmap hp) hu (Or.inl hpp)

theorem cursorBacked_connectSt {st : MState} (H : cursorBacked st)
    (websocket project_id user_id : Nat) (username : String)
    (h : dget websocket st.connection_users = none) :
    cursorBacked (connectSt websocket project_id user_id username st) := by
  have hsurv : ∀ (p1 u1 : Nat) cm c1, dget p1 st.user_cursors = some cm →
      dget u1 cm = some c1 →
      ∃ w inf, dget w (connectSt websocket project_id user_id username st).connection_users
          = some inf ∧ inf.project_id = p1 ∧ inf.user_id = u1 := by
    intro p1 u1 cm c1 hp1 hu1
    rcases H p1 cm u1 c1 hp1 hu1 with ⟨w, inf, hw, hwp, hwu⟩
    have hwne : w ≠ websocket := by
      rintro rfl; rw [hw] at h; cases h
    refine ⟨w, inf, ?_, hwp, hwu⟩
    rw [connectSt_users, dget_dset_ne hwne]
    exact hw
  intro p cmap u c hp hu
  by_cases hpp : p = project_id
  · subst hpp
    rw [connectSt_cursors_self] at hp
    cases hp
    by_cases huu : u = user_id
    · subst huu
      refine ⟨websocket, ⟨u, username, p⟩, ?_, rfl, rfl⟩
      rw [connectSt_users, dget_dset_self]
    · rw [dget_dset_ne huu] at hu
      by_cases hroom : (dget p st.active_connections).isSome
      · rw [if_pos hroom] at hu
        cases hg : dget p st.user_cursors with
        | none => rw [hg] at hu; simp [dget] at hu
        | some cmOld =>
          rw [hg] at hu
          simp only [Option.getD_some] at hu
          exact hsurv p u cmOld c hg hu
      · rw [if_neg hroom] at hu
        simp [dget] at hu
  · rw [connectSt_cursors_ne hpp] at hp
    exact hsurv p u cmap c hp hu

theorem reachable_cursorBacked {st : MState} (h : Reachable st) :
    cursorBacked st := by
  induction h with
  | init => intro p cmap u c hp _; cases hp
  | conn websocket project_id user_id username _ hn ih =>
    exact cursorBacked_connectSt ih websocket project_id user_id username hn
  | disc websocket _ ih => exact cursorBacked_disconnect ih websocket

/-- The reachable trace refuting C1: user 5 ("alice") opens two
simultaneous connections (websockets 1 and 2) in room 7, then websocket 1
disconnects. -/
def c1State : MState := disconnect 1 (connectSt 2 7 5 "alice" exSt1)

/-- C1 as stated is false: after user 5's two simultaneous connections in
room 7 lose one of them, websocket 2 is still a live registered
connection of user 5 in room 7, yet room 7's cursor map is empty — the
surviving connection has no presence entry, so the "if and only if"
(and in particular "disconnecting one of them leaves P's single merged
presence entry in place") does not hold on this reachable state. -/
theorem c1_counterexample :
    Reachable c1State ∧
    dget 2 c1State.connection_users = some ⟨5, "alice", 7⟩ ∧
    dget 7 c1State.user_cursors = some [] :=
  ⟨Reachable.disc 1
    (Reachable.conn 2 7 5 "alice"
      (Reachable.conn 1 7 5 "alice" Reachable.init rfl) (by decide)),
   by decide, by decide⟩

/-- C1 amended: on every reachable state only the forward direction
holds — a presence entry for participant P in room R's cursor map implies
at least one live connection for P currently registered in R.  The
converse fails: P's entry is deleted as soon as any one of P's
connections leaves R, not only the last one (see the counterexample). -/
theorem c1_presence_only_if_connection (st : MState) (h : Reachable st)
    (project_id user_id : Nat) (cmap : List (Nat × Cursor)) (c : Cursor)
    (h1 : dget project_id st.user_cursors = some cmap)
    (h2 : dget user_id cmap = some c) :
    ∃ websocket info, dget websocket st.connection_users = some info ∧
      info.project_id = project_id ∧ info.user_id = user_id :=
  reachable_cursorBacked h project_id cmap user_id c h1 h2

/-- Witness for amended C1: in the reachable one-user room, user 5's
presence entry is backed by a live connection. -/
theorem c1_presence_only_if_connection_witness :
    ∃ websocket info, dget websocket exSt1.connection_users = some info ∧
      info.project_id = 7 ∧ info.user_id = 5 :=
  c1_presence_only_if_connection exSt1
    (Reachable.conn 1 7 5 "alice" Reachable.init rfl) 7 5
    [(5, ⟨0, 0, "alice", "#DDA0DD", none⟩)] ⟨0, 0, "alice", "#DDA0DD", none⟩
    (by decide) (by decide)

/-- C4: on every reachable state each room present in the registry has a
non-empty connection list, and `disconnect` (i) leaves the departing
participant without a presence entry in the room's surviving cursor map,
and (ii) when the websocket was the room's last connection, removes the
room's connection list and its presence map from the registry before
returning. -/
theorem c4_room_lifecycle (st : MState) (h : Reachable st) :
    (∀ project_id conns, dget project_id st.active_connections = some conns →
      conns ≠ []) ∧
    (∀ websocket info, dget websocket st.connection_users = some info →
      (∀ cmap, dget info.project_id (disconnect websocket st).user_cursors = some cmap →
        dget info.user_id cmap = none) ∧
      (dget info.project_id st.active_connections = some [websocket] →
        dget info.project_id (disconnect websocket st).active_connections = none ∧
        dget info.project_id (disconnect websocket st).user_cursors = none)) :=
  ⟨reachable_roomsNonempty h,
   fun _ _ hws => ⟨disconnect_cursor_none hws, fun hl => disconnect_removes_room hws hl⟩⟩

/-- Witness for C4: disconnecting the only connection of room 7 removes
both the room's connection list and its presence map. -/
theorem c4_room_lifecycle_witness :
    dget 7 (disconnect 1 exSt1).active_connections = none ∧
    dget 7 (disconnect 1 exSt1).user_cursors = none :=
  ((c4_room_lifecycle exSt1 (Reachable.conn 1 7 5 "alice" Reachable.init rfl)).2 1
    ⟨5, "alice", 7⟩ (by decide)).2 (by decide)

/-- The reachable trace refuting C7: user 5 ("alice") holds websockets 1
and 2 in room 7, user 6 ("bob") holds websocket 3; websocket 1 leaves,
which (per the C1 defect) deletes user 5's cursor entry. -/
def c7State : MState :=
  disconnect 1 (connectSt 3 7 6 "bob" (connectSt 2 7 5 "alice"
    (connectSt 1 7 5 "alice" initState)))

/-- C7 as stated is false: registered participant 5 (websocket 2) sends
`{"type": "cursor_update", "x": 10, "y": 20}` in a room it shares with
participant 6 (websocket 3), yet nothing is updated and nothing is
delivered — `handle_cursor_update` silently returns because user 5's
cursor entry is gone, so B does not receive the promised envelope. -/
theorem c7_counterexample :
    Reachable c7State ∧
    dget 2 c7State.connection_users = some ⟨5, "alice", 7⟩ ∧
    dget 3 c7State.connection_users = some ⟨6, "bob", 7⟩ ∧
    dget 7 c7State.active_connections = some [2, 3] ∧
    handle_cursor_update 2
        ⟨some "cursor_update", some 10, some 20, none, none, none, none⟩ [] c7State =
      (c7State, []) :=
  ⟨Reachable.disc 1
    (Reachable.conn 3 7 6 "bob"
      (Reachable.conn 2 7 5 "alice"
        (Reachable.conn 1 7 5 "alice" Reachable.init rfl) (by decide)) (by decide)),
   by decide, by decide, by decide, by decide⟩

/-- C7 amended: provided the sender's presence entry still exists in the
room's cursor map (which the code does not guarantee for every registered
participant — see the counterexample), a `cursor_update` (all sends
succeeding) sets the sender's cursor `x`/`y`/`timestamp` to the payload's
values and delivers a `cursor_update` envelope carrying the sender's
bound user id and the updated cursor to exactly the other connections of
the sender's room: every recipient is a room member other than the
sender (so no other room and never the sender), and every other room
member receives it. -/
theorem c7_cursor_update_broadcast (st : MState) (websocket : Nat)
    (data : InMsg) (info : ConnInfo) (cmap : List (Nat × Cursor)) (c : Cursor)
    (conns : List Nat)
    (h1 : dget websocket st.connection_users = some info)
    (h2 : dget info.project_id st.user_cursors = some cmap)
    (h3 : dget info.user_id cmap = some c)
    (h4 : dget info.project_id st.active_connections = some conns) :
    dget info.user_id
      ((dget info.project_id (handle_cursor_update websocket data [] st).1.user_cursors).getD [])
      = some { c with x := data.x.getD 0, y := data.y.getD 0, timestamp := data.timestamp } ∧
    (∀ p0 ∈ (handle_cursor_update websocket data [] st).2,
      p0.1 ∈ conns ∧ p0.1 ≠ websocket ∧
      p0.2 = Envelope.cursor_update info.user_id
        { c with x := data.x.getD 0, y := data.y.getD 0, timestamp := data.timestamp }) ∧
    (∀ w ∈ conns, w ≠ websocket →
      (w, Envelope.cursor_update info.user_id
          { c with x := data.x.getD 0, y := data.y.getD 0, timestamp := data.timestamp })
        ∈ (handle_cursor_update websocket data [] st).2) := by
  simp only [handle_cursor_update, h1, h2, h3]
  refine ⟨?_, ?_, ?_⟩
  · rw [broadcast_nofail_state]
    simp only [dget_dset_self, Option.getD_some]
  · intro p0 hp0
    simp only [broadcast_to_project, h4] at hp0
    rcases List.mem_map.1 hp0 with ⟨w, hw, hwp⟩
    rcases List.mem_filter.1 hw with ⟨hwc, hcond⟩
    simp only [decide_eq_true_eq] at hcond
    have hwne : w ≠ websocket := by
      intro hc
      exact hcond.1 (by rw [hc])
    rw [← hwp]
    exact ⟨hwc, hwne, rfl⟩
  · intro w hw hwne
    simp only [broadcast_to_project, h4]
    refine List.mem_map.2 ⟨w, List.mem_filter.2 ⟨hw, ?_⟩, rfl⟩
    simp [hwne]

/-- Witness for amended C7: with A = user 5 on websocket 1 and B = user 6
on websocket 2 sharing room 7, A's `{"x": 10, "y": 20}` update reaches B
as `user_id 5` with cursor `x = 10, y = 20`. -/
theorem c7_cursor_update_broadcast_witness :
    (2, Envelope.cursor_update 5 ⟨10, 20, "alice", "#DDA0DD", none⟩) ∈
      (handle_cursor_update 1
        ⟨some "cursor_update", some 10, some 20, none, none, none, none⟩ [] exRoom2).2 :=
  (c7_cursor_update_broadcast exRoom2 1
    ⟨some "cursor_update", some 10, some 20, none, none, none, none⟩
    ⟨5, "alice", 7⟩
    [(6, ⟨0, 0, "bob", "#98D8C8", none⟩), (5, ⟨0, 0, "alice", "#DDA0DD", none⟩)]
    ⟨0, 0, "alice", "#DDA0DD", none⟩ [1, 2]
    (by decide) (by decide) (by decide) (by decide)).2.2 2 (by decide) (by decide)

/-! ## The joining-client snapshot (C6) -/

/-- Whether user `u` has a cursor entry in room `project_id`. -/
def presentIds (st : MState) (project_id u : Nat) : Bool :=
  (dget u ((dget project_id st.user_cursors).getD [])).isSome

/-- Induction invariant for join histories: a room absent from the
registry has an (effectively) empty cursor map, and the room's cursor map
has pairwise-distinct keys. -/
def JInv (project_id : Nat) (st : MState) : Prop :=
  (dget project_id st.active_connections = none →
    (dget project_id st.user_cursors).getD [] = []) ∧
  keysNodup ((dget project_id st.user_cursors).getD [])

theorem init_JInv (project_id : Nat) : JInv project_id initState :=
  ⟨fun _ => rfl, by simp [keysNodup, initState, dget]⟩

theorem connectSt_JInv {project_id : Nat} {st : MState} (h : JInv project_id st)
    (websocket user_id : Nat) (username : String) :
    JInv project_id (connectSt websocket project_id user_id username st) := by
  constructor
  · intro hnone
    rw [connectSt_active_self] at hnone
    cases hnone
  · rw [connectSt_cursors_self]
    simp only [Option.getD_some]
    apply keysNodup_dset
    by_cases hroom : (dget project_id st.active_connections).isSome
    · rw [if_pos hroom]; exact h.2
    · rw [if_neg hroom]; simp [keysNodup]

theorem connectSt_presentIds {project_id : Nat} {st : MState}
    (hA : dget project_id st.active_connections = none →
      (dget project_id st.user_cursors).getD [] = [])
    (websocket user_id : Nat) (username : String) (u : Nat) :
    presentIds (connectSt websocket project_id user_id username st) project_id u =
      (decide (u = user_id) || presentIds st project_id u) := by
  unfold presentIds
  rw [connectSt_cursors_self]
  simp only [Option.getD_some]
  by_cases huu : u = user_id
  · subst huu
    rw [dget_dset_self]
    simp
  · rw [dget_dset_ne huu]
    by_cases hroom : (dget project_id st.active_connections).isSome
    · rw [if_pos hroom]
      simp [huu]
    · rw [if_neg hroom]
      rw [Option.not_isSome_iff_eq_none] at hroom
      rw [hA hroom]
      simp [huu, dget]

theorem joinAll_JInv {project_id : Nat} :
    ∀ (joins : List (Nat × Nat × String)) {st : MState}, JInv project_id st →
      JInv project_id (joinAll project_id joins st) := by
  intro joins
  induction joins with
  | nil => intro st h; exact h
  | cons j t ih => intro st h; exact ih (connectSt_JInv h j.1 j.2.1 j.2.2)

theorem joinAll_presentIds {project_id : Nat} :
    ∀ (joins : List (Nat × Nat × String)) {st : MState}, JInv project_id st →
      ∀ u : Nat,
      presentIds (joinAll project_id joins st) project_id u =
        (joins.any (fun j => decide (u = j.2.1)) || presentIds st project_id u) := by
  intro joins
  induction joins with
  | nil => intro st _ u; simp [joinAll]
  | cons j t ih =>
    intro st hJ u
    have hstep : joinAll project_id (j :: t) st =
        joinAll project_id t (connectSt j.1 project_id j.2.1 j.2.2 st) := rfl
    rw [hstep, ih (connectSt_JInv hJ j.1 j.2.1 j.2.2) u,
        connectSt_presentIds hJ.1 j.1 j.2.1 j.2.2 u]
    simp [Bool.or_comm, Bool.or_left_comm, Bool.or_assoc]

/-- The joining websocket always receives the current-state snapshot
event, built from the room's cursor map right after its own entry was
seeded (and after the `user_joined` broadcast). -/
theorem connect_event_mem (websocket project_id user_id : Nat)
    (username : String) (st : MState) :
    (websocket, Envelope.project_state
      (((dget project_id (connectSt websocket project_id user_id username st).user_cursors).getD []).map
        (fun q => UserEntry.mk q.1 q.2.username q.2)))
      ∈ (connect websocket project_id user_id username [] st).2 := by
  unfold connectSt connect
  simp [send_personal_message]

/-- For any base state satisfying `JInv`, the snapshot sent to a joiner
lists exactly the joiner plus the users already present in the room's
cursor map, without duplicate ids. -/
theorem connect_snapshot_spec (websocket project_id user_id : Nat)
    (username : String) (st : MState) (hJ : JInv project_id st) :
    ∃ snapshot : List UserEntry,
      (websocket, Envelope.project_state snapshot) ∈
        (connect websocket project_id user_id username [] st).2 ∧
      (∀ u : Nat, (∃ e ∈ snapshot, e.id = u) ↔
        (u = user_id ∨ presentIds st project_id u = true)) ∧
      (snapshot.map UserEntry.id).Nodup := by
  refine ⟨((dget project_id (connectSt websocket project_id user_id username st).user_cursors).getD []).map
      (fun q => UserEntry.mk q.1 q.2.username q.2),
    connect_event_mem websocket project_id user_id username st, ?_, ?_⟩
  · intro u
    have hpc : presentIds (connectSt websocket project_id user_id username st) project_id u =
        (decide (u = user_id) || presentIds st project_id u) :=
      connectSt_presentIds hJ.1 websocket user_id username u
    constructor
    · rintro ⟨e, he, hid⟩
      rcases List.mem_map.1 he with ⟨q, hq, hqe⟩
      have hq1 : (dget q.1 ((dget project_id
          (connectSt websocket project_id user_id username st).user_cursors).getD [])).isSome = true :=
        dget_isSome_of_mem (show (q.1, q.2) ∈ _ from hq)
      have hqu : q.1 = u := by
        rw [← hqe] at hid
        exact hid
      rw [hqu] at hq1
      have hp : presentIds (connectSt websocket project_id user_id username st) project_id u = true := hq1
      rw [hpc] at hp
      simpa using hp
    · intro hu
      have hp : presentIds (connectSt websocket project_id user_id username st) project_id u = true := by
        rw [hpc]
        simpa using hu
      have hp2 : (dget u ((dget project_id
          (connectSt websocket project_id user_id username st).user_cursors).getD [])).isSome = true := hp
      rcases Option.isSome_iff_exists.1 hp2 with ⟨c, hc⟩
      exact ⟨UserEntry.mk u c.username c,
        List.mem_map.2 ⟨(u, c), mem_of_dget hc, rfl⟩, rfl⟩
  · rw [List.map_map]
    have hK := (connectSt_JInv hJ websocket user_id username).2
    simpa [keysNodup, Function.comp] using hK

/-- C6 amended: for every joins-only history of a room, the joining
connection receives, at join time, the snapshot envelope — whose wire
`type` is `"project_state"`, not the spec's `"presence_snapshot"` — whose
`active_users` list has exactly one entry per participant of the room:
the joiner itself and every previously-joined participant, no omissions,
no duplicate ids, each entry carrying `id`, `username` and the cursor
(`x`, `y`, `color`). -/
theorem c6_snapshot_complete (project_id : Nat)
    (joins : List (Nat × Nat × String)) (websocket user_id : Nat)
    (username : String) :
    ∃ snapshot : List UserEntry,
      (websocket, Envelope.project_state snapshot) ∈
        (connect websocket project_id user_id username []
          (joinAll project_id joins initState)).2 ∧
      (∀ u : Nat, (∃ e ∈ snapshot, e.id = u) ↔
        (u = user_id ∨ ∃ j ∈ joins, u = j.2.1)) ∧
      (snapshot.map UserEntry.id).Nodup := by
  have hJ := joinAll_JInv joins (init_JInv project_id)
  rcases connect_snapshot_spec websocket project_id user_id username _ hJ with
    ⟨snapshot, hmem, hiff, hnd⟩
  refine ⟨snapshot, hmem, ?_, hnd⟩
  intro u
  rw [hiff u, joinAll_presentIds joins (init_JInv project_id) u]
  have hinit : presentIds initState project_id u = false := rfl
  rw [hinit]
  simp [List.any_eq_true]

/-- Room 7 after "alice" (user 5) joined on websocket 1. -/
def c6State : MState := joinAll 7 [(1, 5, "alice")] initState

/-- C6 as stated is false on the envelope's wire type: the snapshot the
joiner receives is typed `"project_state"`, and no envelope of type
`"presence_snapshot"` is ever sent to the joining websocket 2. -/
theorem c6_counterexample :
    (∃ p0 ∈ (connect 2 7 6 "bob" [] c6State).2,
      p0.1 = 2 ∧ Envelope.typeTag p0.2 = "project_state") ∧
    (∀ p0 ∈ (connect 2 7 6 "bob" [] c6State).2,
      p0.1 = 2 → Envelope.typeTag p0.2 ≠ "presence_snapshot") := by
  decide

/-! ## Timeline reorder (C10) -/

theorem updateFirst_mem_of_not {p : Clip → Bool} {f : Clip → Clip} {c : Clip} :
    ∀ {db : List Clip}, c ∈ db → p c = false → c ∈ updateFirst p f db := by
  intro db
  induction db with
  | nil => intro h _; cases h
  | cons d ds ih =>
    intro h hc
    unfold updateFirst
    by_cases hd : p d = true
    · rw [if_pos hd]
      rcases List.mem_cons.1 h with rfl | h1
      · rw [hd] at hc; cases hc
      · exact List.mem_cons_of_mem _ h1
    · rw [if_neg hd]
      rcases List.mem_cons.1 h with rfl | h1
      · exact List.mem_cons_self _ _
      · exact List.mem_cons_of_mem _ (ih h1 hc)

theorem updateFirst_mem_update {p : Clip → Bool} {f : Clip → Clip} {c : Clip} :
    ∀ {db : List Clip}, c ∈ db → p c = true →
      (∀ c2 ∈ db, p c2 = true → c2 = c) → f c ∈ updateFirst p f db := by
  intro db
  induction db with
  | nil => intro h _ _; cases h
  | cons d ds ih =>
    intro h hc huniq
    unfold updateFirst
    by_cases hd : p d = true
    · rw [if_pos hd]
      rw [huniq d (List.mem_cons_self _ _) hd]
      exact List.mem_cons_self _ _
    · rw [if_neg hd]
      have hcd : c ∈ ds := by
        rcases List.mem_cons.1 h with rfl | h1
        · exact absurd hc hd
        · exact h1
      exact List.mem_cons_of_mem _
        (ih hcd hc (fun c2 h2 => huniq c2 (List.mem_cons_of_mem _ h2)))

theorem updateFirst_setst_map_ids (p : Clip → Bool) (r : Rat) :
    ∀ db : List Clip,
      (updateFirst p (fun c => { c with start_time := r }) db).map Clip.id =
        db.map Clip.id := by
  intro db
  induction db with
  | nil => rfl
  | cons d ds ih =>
    unfold updateFirst
    by_cases hd : p d = true
    · rw [if_pos hd]
      simp
    · rw [if_neg hd]
      simp [ih]

theorem nodup_ids_unique : ∀ {db : List Clip}, (db.map Clip.id).Nodup →
    ∀ {c c2 : Clip}, c ∈ db → c2 ∈ db → c2.id = c.id → c2 = c := by
  intro db
  induction db with
  | nil => intro _ c c2 hc; cases hc
  | cons d ds ih =>
    intro hnd c c2 hc hc2 hid
    rw [List.map_cons, List.nodup_cons] at hnd
    rcases List.mem_cons.1 hc with rfl | hc1
    · rcases List.mem_cons.1 hc2 with rfl | hc21
      · rfl
      · exact absurd (hid ▸ List.mem_map_of_mem Clip.id hc21) hnd.1
    · rcases List.mem_cons.1 hc2 with rfl | hc21
      · exact absurd (hid ▸ List.mem_map_of_mem Clip.id hc1) hnd.1
      · exact ih hnd.2 hc1 hc21 hid

theorem reorderLoop_preserves {project_id : Nat} {c : Clip} :
    ∀ (ord : List Nat) (i : Nat) {db : List Clip}, c ∈ db →
      (c.project_id ≠ project_id ∨ c.id ∉ ord) →
      c ∈ reorderLoop project_id i ord db := by
  intro ord
  induction ord with
  | nil => intro i db h _; exact h
  | cons cid rest ih =>
    intro i db h hside
    have hc : (decide (c.id = cid ∧ c.project_id = project_id)) = false := by
      rcases hside with hs | hs
      · simp [hs]
      · simp only [List.mem_cons, not_or] at hs
        simp [hs.1]
    have hside2 : c.project_id ≠ project_id ∨ c.id ∉ rest := by
      rcases hside with hs | hs
      · exact Or.inl hs
      · simp only [List.mem_cons, not_or] at hs
        exact Or.inr hs.2
    exact ih (i + 1) (updateFirst_mem_of_not h hc) hside2

theorem reorderLoop_map_ids {project_id : Nat} :
    ∀ (ord : List Nat) (i : Nat) (db : List Clip),
      (reorderLoop project_id i ord db).map Clip.id = db.map Clip.id := by
  intro ord
  induction ord with
  | nil => intro i db; rfl
  | cons cid rest ih =>
    intro i db
    rw [reorderLoop, ih, updateFirst_setst_map_ids]

theorem reorderLoop_sets_position {project_id : Nat} :
    ∀ (ord : List Nat) (i k : Nat) {db : List Clip} {c : Clip},
      (db.map Clip.id).Nodup → ord.Nodup → c ∈ db →
      c.project_id = project_id → ord.get? k = some c.id →
      { c with start_time := ((i + k : Nat) : Rat) * 1 } ∈
        reorderLoop project_id i ord db := by
  intro ord
  induction ord with
  | nil => intro i k db c _ _ _ _ hk; cases hk
  | cons cid rest ih =>
    intro i k db c hnd hordnd hc hproj hk
    rw [List.nodup_cons] at hordnd
    cases k with
    | zero =>
      have hcid : cid = c.id := by
        simp [List.get?] at hk
        exact hk
      have hpc : (decide (c.id = cid ∧ c.project_id = project_id)) = true := by
        simp [hcid, hproj]
      have huniq : ∀ c2 ∈ db,
          (decide (c2.id = cid ∧ c2.project_id = project_id)) = true → c2 = c := by
        intro c2 h2 hp2
        simp only [decide_eq_true_eq] at hp2
        exact nodup_ids_unique hnd hc h2 (by rw [hp2.1, hcid])
      have hupd : { c with start_time := ((i : Nat) : Rat) * 1 } ∈
          updateFirst (fun c0 => decide (c0.id = cid ∧ c0.project_id = project_id))
            (fun c0 => { c0 with start_time := ((i : Nat) : Rat) * 1 }) db :=
        updateFirst_mem_update hc hpc huniq
      have hpres : { c with start_time := ((i : Nat) : Rat) * 1 } ∈
          reorderLoop project_id (i + 1) rest
            (updateFirst (fun c0 => decide (c0.id = cid ∧ c0.project_id = project_id))
              (fun c0 => { c0 with start_time := ((i : Nat) : Rat) * 1 }) db) :=
        reorderLoop_preserves rest (i + 1) hupd (Or.inr (by simpa [hcid] using hordnd.1))
      exact hpres
    | succ k1 =>
      have hk1 : rest.get? k1 = some c.id := by
        simpa [List.get?] using hk
      have hmem : c.id ∈ rest := List.get?_mem hk1
      have hcid : c.id ≠ cid := by
        intro hcc
        exact hordnd.1 (hcc ▸ hmem)
      have hpc : (decide (c.id = cid ∧ c.project_id = project_id)) = false := by
        simp [hcid]
      have hstep : { c with start_time := (((i + 1) + k1 : Nat) : Rat) * 1 } ∈
          reorderLoop project_id (i + 1) rest
            (updateFirst (fun c0 => decide (c0.id = cid ∧ c0.project_id = project_id))
              (fun c0 => { c0 with start_time := ((i : Nat) : Rat) * 1 }) db) :=
        ih (i + 1) k1
          (by rw [updateFirst_setst_map_ids]; exact hnd)
          hordnd.2 (updateFirst_mem_of_not hc hpc) hproj hk1
      have harith : (i + 1) + k1 = i + (k1 + 1) := by omega
      rw [harith] at hstep
      exact hstep

/-- C10: an authorized reorder request (member role `owner` or `editor`)
succeeds and renumbers sequentially: every listed clip id that names a
clip of the target project gets `start_time = index * 1.0` for its
zero-based index in the list; listed ids that name no clip of the target
project are skipped without error and without touching any row; clips of
the target project that are not listed, and clips of other projects, are
left unchanged; the table keeps exactly the same clips (by id), in
order.  (Hypotheses: the listed ids are pairwise distinct and the
table's primary keys are unique.) -/
theorem c10_reorder_sequential (project_id : Nat) (clip_order : List Nat)
    (role : Option String) (db : List Clip)
    (hrole : role = some "owner" ∨ role = some "editor")
    (hnd : (db.map Clip.id).Nodup) (hord : clip_order.Nodup) :
    ∃ db2, reorder_timeline_clips project_id clip_order role db =
        .ok db2 "Timeline reordered successfully" ∧
      (∀ c ∈ db, ∀ k : Nat, c.project_id = project_id →
        clip_order.get? k = some c.id →
        { c with start_time := (k : Rat) * 1 } ∈ db2) ∧
      (∀ c ∈ db, c.id ∉ clip_order → c ∈ db2) ∧
      (∀ c ∈ db, c.project_id ≠ project_id → c ∈ db2) ∧
      db2.map Clip.id = db.map Clip.id := by
  have hok : reorder_timeline_clips project_id clip_order role db =
      .ok (reorderLoop project_id 0 clip_order db) "Timeline reordered successfully" := by
    rcases hrole with rfl | rfl
    · simp [reorder_timeline_clips]
    · simp [reorder_timeline_clips]
  refine ⟨reorderLoop project_id 0 clip_order db, hok, ?_, ?_, ?_,
    reorderLoop_map_ids clip_order 0 db⟩
  · intro c hc k hproj hk
    have := reorderLoop_sets_position clip_order 0 k hnd hord hc hproj hk
    simpa using this
  · intro c hc hnotin
    exact reorderLoop_preserves clip_order 0 hc (Or.inr hnotin)
  · intro c hc hne
    exact reorderLoop_preserves clip_order 0 hc (Or.inl hne)

/-- Witness for C10: with clips 1 and 2 in project 7 and clip 3 in
project 8, an editor's reorder `[3, 1, 99]` gives clip 1 position
`1 * 1.0`, skips id 3 (wrong project) and id 99 (no such clip), and
leaves clips 2 and 3 untouched. -/
theorem c10_reorder_sequential_witness :
    ∃ db2, reorder_timeline_clips 7 [3, 1, 99] (some "editor")
        [⟨1, 7, 5, 2, 0⟩, ⟨2, 7, 9, 1, 0⟩, ⟨3, 8, 4, 1, 1⟩] =
      .ok db2 "Timeline reordered successfully" ∧
      (⟨1, 7, (1 : Rat) * 1, 2, 0⟩ : Clip) ∈ db2 ∧
      (⟨2, 7, 9, 1, 0⟩ : Clip) ∈ db2 ∧
      (⟨3, 8, 4, 1, 1⟩ : Clip) ∈ db2 := by
  rcases c10_reorder_sequential 7 [3, 1, 99] (some "editor")
      [⟨1, 7, 5, 2, 0⟩, ⟨2, 7, 9, 1, 0⟩, ⟨3, 8, 4, 1, 1⟩]
      (Or.inr rfl) (by decide) (by decide) with
    ⟨db2, heq, hpos, hmiss, hproj, _⟩
  exact ⟨db2, heq,
    hpos ⟨1, 7, 5, 2, 0⟩ (by decide) 1 (by decide) (by decide),
    hmiss ⟨2, 7, 9, 1, 0⟩ (by decide) (by decide),
    hproj ⟨3, 8, 4, 1, 1⟩ (by decide) (by decide)⟩
